import Mathlib

/-!
Verification development for the pgagent retrieval-augmented conversation
orchestration layer: a shallow embedding of the Python sources
(src/lib/chat.py, src/lib/embeddings.py, src/lib/database.py,
src/gui/server.py, src/cli/chat.py) with the external services (PostgreSQL
memory gateway, provider HTTP backends) given as oracles, plus theorems
about the embedded definitions.
-/

namespace Pgagent

/-- A Python value as it occurs in the settings dictionary returned by
`db.get_all_settings()` (JSON scalars: strings, numbers, booleans, null). -/
inductive PyVal where
  | str : String → PyVal
  | int : Int → PyVal
  | bool : Bool → PyVal
  | none : PyVal
deriving DecidableEq

/-- Python truthiness of a `PyVal`, as used by `if settings.get(...)`. -/
def PyVal.truthy : PyVal → Bool
  | .str s => !s.isEmpty
  | .int n => decide (n ≠ 0)
  | .bool b => b
  | .none => false

/-- Python `str()` rendering of a `PyVal`, as used by f-strings such as
`f"Unknown chat provider: {provider}"` (braces rendered here as text). -/
def PyVal.render : PyVal → String
  | .str s => s
  | .int n => toString n
  | .bool true => "True"
  | .bool false => "False"
  | .none => "None"

/-- The settings dictionary. -/
abbrev Settings := List (String × PyVal)

/-- Python `dict.get(key, default)` on the settings dictionary. -/
def Settings.get (s : Settings) (key : String) (dflt : PyVal) : PyVal :=
  ((s.find? (fun kv => kv.1 = key)).map (fun kv => kv.2)).getD dflt

/-- One conversation turn, a Python dict with keys `role` and `content`. -/
structure Turn where
  role : String
  content : String
deriving DecidableEq

/-- The projection of a retrieved memory row that the front ends use:
`m['category']` and `m['content']`. -/
structure RetrievedMemory where
  category : String
  content : String
deriving DecidableEq

/-- Embedding vector; the float entries are modelled as rationals (the
orchestration code only passes them around, it never computes with them). -/
abbrev Vec := List Rat

/-- Context block built from the retrieved memories
(src/gui/server.py lines 155-161 and src/cli/chat.py lines 90-96):
the context starts empty, and for a non-empty memory list the code appends
one line per memory between an opening and a closing delimiter tag. -/
def buildContext (memories : List RetrievedMemory) : String :=
  if memories.isEmpty then ""
  else
    (memories.foldl
      (fun acc m => acc ++ "- [" ++ m.category ++ "] " ++ m.content ++ "\n")
      "\n<relevant-memories>\n") ++ "</relevant-memories>\n"

/-- The lines of the context block, one per memory, in input order. -/
def memoryLines : List RetrievedMemory → String
  | [] => ""
  | m :: rest => ("- [" ++ m.category ++ "] " ++ m.content ++ "\n") ++ memoryLines rest

/-! ## Provider dispatch (src/lib/chat.py, src/lib/embeddings.py) -/

/-- The default system prompt of src/lib/chat.py line 15. -/
def defaultSystemPrompt : String :=
  "You are a helpful assistant with access to long-term memory."

/-- The adapter invocation that `get_chat_response` routes to, carrying the
arguments the Python code passes to the adapter (src/lib/chat.py
lines 17-24: `user_message, history, context, system_prompt, model`). -/
inductive ChatDispatch where
  | openai (userMessage : String) (history : List Turn) (context : String)
      (systemPrompt model : PyVal)
  | anthropic (userMessage : String) (history : List Turn) (context : String)
      (systemPrompt model : PyVal)
  | gemini (userMessage : String) (history : List Turn) (context : String)
      (systemPrompt model : PyVal)
  | ollama (userMessage : String) (history : List Turn) (context : String)
      (systemPrompt model : PyVal)
deriving DecidableEq

/-- src/lib/chat.py `get_chat_response` (lines 11-26): reads the provider,
model and system prompt from the settings and dispatches on the provider
string; an unknown provider raises
`ValueError(f"Unknown chat provider: {provider}")`. -/
def get_chat_response (userMessage : String) (history : List Turn)
    (context : String) (settings : Settings) : Except String ChatDispatch :=
  let provider := settings.get "chat_provider" (.str "openai")
  let model := settings.get "chat_model" (.str "gpt-4o-mini")
  let systemPrompt := settings.get "system_prompt" (.str defaultSystemPrompt)
  if provider = .str "openai" then
    .ok (.openai userMessage history context systemPrompt model)
  else if provider = .str "anthropic" then
    .ok (.anthropic userMessage history context systemPrompt model)
  else if provider = .str "gemini" then
    .ok (.gemini userMessage history context systemPrompt model)
  else if provider = .str "ollama" then
    .ok (.ollama userMessage history context systemPrompt model)
  else
    .error ("Unknown chat provider: " ++ provider.render)

/-- The adapter invocation that `get_embedding` routes to, carrying the
arguments the Python code passes (src/lib/embeddings.py lines 16-23:
`text, model`). -/
inductive EmbedDispatch where
  | openai (text : String) (model : PyVal)
  | gemini (text : String) (model : PyVal)
  | voyage (text : String) (model : PyVal)
  | ollama (text : String) (model : PyVal)
deriving DecidableEq

/-- src/lib/embeddings.py `get_embedding` (lines 11-25): reads the provider
and model from the settings and dispatches on the provider string; an
unknown provider raises
`ValueError(f"Unknown embedding provider: {provider}")`. -/
def get_embedding (text : String) (settings : Settings) :
    Except String EmbedDispatch :=
  let provider := settings.get "embedding_provider" (.str "openai")
  let model := settings.get "embedding_model" (.str "text-embedding-3-small")
  if provider = .str "openai" then .ok (.openai text model)
  else if provider = .str "gemini" then .ok (.gemini text model)
  else if provider = .str "voyage" then .ok (.voyage text model)
  else if provider = .str "ollama" then .ok (.ollama text model)
  else .error ("Unknown embedding provider: " ++ provider.render)

/-! ## Model-name translation inside the adapters -/

/-- The shared cross-provider chat default placeholders
(`model in ('gpt-4o-mini', 'gpt-4o')`). -/
def chatPlaceholders : List String := ["gpt-4o-mini", "gpt-4o"]

/-- Environment lookup, `os.getenv`. -/
abbrev Env := String → Option String

/-- Python `os.getenv(key, default)`. -/
def getenvD (env : Env) (key dflt : String) : String := (env key).getD dflt

/-- src/lib/chat.py `_anthropic_chat` lines 49-53: model-name translation
before the upstream call. -/
def anthropicChatModel (model : String) : String :=
  if model = "gpt-4o-mini" then "claude-3-haiku-20240307"
  else if model = "gpt-4o" then "claude-3-5-sonnet-20241022"
  else model

/-- src/lib/chat.py `_gemini_chat` lines 71-73: model-name translation. -/
def geminiChatModel (model : String) : String :=
  if model ∈ chatPlaceholders then "gemini-1.5-flash" else model

/-- src/lib/chat.py `_ollama_chat` lines 90-92: model-name translation,
environment-overridable local default. -/
def ollamaChatModel (env : Env) (model : String) : String :=
  if model ∈ chatPlaceholders then getenvD env "OLLAMA_CHAT_MODEL" "llama3.1:8b"
  else model

/-- src/lib/embeddings.py `_gemini_embedding` lines 82-84. -/
def geminiEmbeddingModel (model : String) : String :=
  if model = "text-embedding-3-small" then "models/embedding-001" else model

/-- src/lib/embeddings.py `_voyage_embedding` lines 94-96. -/
def voyageEmbeddingModel (model : String) : String :=
  if model = "text-embedding-3-small" then "voyage-2" else model

/-- src/lib/embeddings.py `_ollama_embedding` lines 48-50. -/
def ollamaEmbeddingModel (env : Env) (model : String) : String :=
  if model = "text-embedding-3-small" then
    getenvD env "OLLAMA_EMBEDDING_MODEL" "nomic-embed-text"
  else model

/-! ## Orchestration (src/gui/server.py `chat`, src/cli/chat.py `main`)

The external calls made during one turn — the database (memory gateway) and
the provider backends — are given by oracles: each oracle field is the
outcome the corresponding call would have on this turn (`Except.error`
models a raised exception). The calls actually issued are recorded in an
event list, in call order. -/

/-- Oracle for the provider calls of one turn. -/
structure Provider where
  embedResult : Except String Vec
  chatResult : Except String String

/-- Oracle for the memory-gateway (database) calls of one turn. -/
structure Db where
  settings : Settings
  searchResult : Except String (List RetrievedMemory)
  searchFtsResult : Except String (List RetrievedMemory)
  shouldCaptureResult : Except String Bool
  storeResult : Except String Unit

/-- An external call issued during a turn. -/
inductive Event where
  | getAllSettings
  | embed
  | search (limit : PyVal)
  | searchFts (limit : PyVal)
  | chat (context : String)
  | shouldCapture
  | store (embedding : Option Vec)
deriving DecidableEq

/-- The GUI response body (server.py `ChatResponse`). -/
structure ChatResponse where
  response : String
  memories_used : List RetrievedMemory
  memory_saved : Bool
deriving DecidableEq

/-- The per-session conversation map (server.py module-level `conversations`
dict), keyed by session id, in insertion order. -/
abbrev Conversations := List (String × List Turn)

/-- Dict lookup of a session's history; a missing session reads as `[]`
(the code only reads after lazily inserting `[]`). -/
def getHistory (cs : Conversations) (sid : String) : List Turn :=
  ((cs.find? (fun kv => kv.1 = sid)).map (fun kv => kv.2)).getD []

/-- server.py lines 134-135: `if req.session_id not in conversations:
conversations[req.session_id] = []`. -/
def ensureSession (cs : Conversations) (sid : String) : Conversations :=
  if (cs.find? (fun kv => kv.1 = sid)).isSome then cs else cs ++ [(sid, [])]

/-- Dict assignment `conversations[sid] = h` for a key already present. -/
def setHistory (cs : Conversations) (sid : String) (h : List Turn) :
    Conversations :=
  cs.map (fun kv => if kv.1 = sid then (sid, h) else kv)

/-- Python truthiness of the `query_embedding` variable (either `None` or a
float list; an empty list is falsy). -/
def optTruthy : Option Vec → Bool
  | Option.some l => !l.isEmpty
  | Option.none => false

/-- The `query_embedding` variable after the guarded embedding call
(server.py lines 139-142, chat.py lines 76-80): the vector on success,
`None` when the call raised. -/
def embedOpt (prov : Provider) : Option Vec :=
  match prov.embedResult with
  | .ok e => Option.some e
  | .error _ => Option.none

/-- The trim step (server.py lines 174-175, chat.py lines 113-114):
`if len(history) > 20: history = history[-20:]`. -/
def trim20 (h : List Turn) : List Turn :=
  if h.length > 20 then h.drop (h.length - 20) else h

/-- History update of one successful turn (server.py lines 169-175 and
chat.py lines 108-114): append the user turn and the assistant turn, then
keep only the last 20 turns when the length exceeds 20. -/
def appendTrim (history : List Turn) (userMsg reply : String) : List Turn :=
  trim20 (history ++ [⟨"user", userMsg⟩, ⟨"assistant", reply⟩])

/-- The auto-capture `try` block of the GUI (server.py lines 180-185):
`embedding = query_embedding or get_embedding(req.message, settings)`, then
`db.store(req.message, embedding, source='user')`; any exception inside the
block is swallowed. Returns the `memory_saved` flag and the calls issued. -/
def guiCapture (db : Db) (prov : Provider) (queryEmbedding : Option Vec) :
    Bool × List Event :=
  let fresh : Except String Vec × List Event :=
    if optTruthy queryEmbedding then (.ok (queryEmbedding.getD []), [])
    else (prov.embedResult, [.embed])
  match fresh.1 with
  | .ok emb =>
    match db.storeResult with
    | .ok _ => (true, fresh.2 ++ [.store (Option.some emb)])
    | .error _ => (false, fresh.2 ++ [.store (Option.some emb)])
  | .error _ => (false, fresh.2)

/-- The auto-capture `try` block of the CLI (chat.py lines 123-128):
`embedding = get_embedding(user_input, settings) if query_embedding else
None`, then `db.store(user_input, embedding, source='user')`; any exception
inside the block is swallowed. -/
def cliCapture (db : Db) (prov : Provider) (queryEmbedding : Option Vec) :
    Bool × List Event :=
  let fresh : Except String (Option Vec) × List Event :=
    if optTruthy queryEmbedding then (prov.embedResult.map Option.some, [.embed])
    else (.ok Option.none, [])
  match fresh.1 with
  | .ok emb =>
    match db.storeResult with
    | .ok _ => (true, fresh.2 ++ [.store emb])
    | .error _ => (false, fresh.2 ++ [.store emb])
  | .error _ => (false, fresh.2)

/-- Outcome of one GUI `chat` request: the returned (or raised) result, the
conversation map afterwards, and the external calls issued. -/
structure GuiOutcome where
  result : Except String ChatResponse
  conversations : Conversations
  events : List Event

/-- src/gui/server.py `chat` endpoint (lines 128-191): fetch the settings,
lazily create the session history, embed the message (degrading to `None`),
search memories (hybrid when an embedding was obtained, full-text
otherwise; a search failure propagates), build the context, call the chat
provider (a failure is re-raised as an HTTP 500 with the underlying
message), append the user/assistant pair and trim the history, then run the
auto-capture stage. -/
def guiChat (db : Db) (prov : Provider) (message sessionId : String)
    (convs : Conversations) : GuiOutcome :=
  let settings := db.settings
  let convs1 := ensureSession convs sessionId
  let history := getHistory convs1 sessionId
  let queryEmbedding := embedOpt prov
  let limit := settings.get "search_limit" (.int 5)
  let searchPick : Except String (List RetrievedMemory) × Event :=
    if optTruthy queryEmbedding then (db.searchResult, .search limit)
    else (db.searchFtsResult, .searchFts limit)
  match searchPick.1 with
  | .error e => ⟨.error e, convs1, [.getAllSettings, .embed, searchPick.2]⟩
  | .ok memories =>
    let context := buildContext memories
    match prov.chatResult with
    | .error e =>
      ⟨.error e, convs1, [.getAllSettings, .embed, searchPick.2, .chat context]⟩
    | .ok reply =>
      let convs2 := setHistory convs1 sessionId (appendTrim history message reply)
      let base : List Event := [.getAllSettings, .embed, searchPick.2, .chat context]
      if (settings.get "auto_capture" (.bool true)).truthy then
        match db.shouldCaptureResult with
        | .error e => ⟨.error e, convs2, base ++ [.shouldCapture]⟩
        | .ok true =>
          let cap := guiCapture db prov queryEmbedding
          ⟨.ok ⟨reply, memories.take 3, cap.1⟩, convs2,
            base ++ [.shouldCapture] ++ cap.2⟩
        | .ok false =>
          ⟨.ok ⟨reply, memories.take 3, false⟩, convs2, base ++ [.shouldCapture]⟩
      else
        ⟨.ok ⟨reply, memories.take 3, false⟩, convs2, base⟩

/-- Outcome of one CLI loop iteration: the reply (or, for `.error`, the
exception that ended the stage), the conversation history afterwards, the
`(memory saved)` indicator, whether the exception was unhandled (crashing
the process rather than being printed-and-continued), and the calls
issued. -/
structure CliOutcome where
  result : Except String String
  history : List Turn
  memorySaved : Bool
  crashed : Bool
  events : List Event

/-- One iteration of the src/cli/chat.py `main` loop (lines 75-128) on a
chat message: embed (degrading to `None` with a printed warning), search
memories (a search failure is uncaught and crashes), build the context,
call the chat provider (a failure is printed and the iteration continues
with the history unchanged), append the pair and trim, then the
auto-capture stage, gated by the settings passed in — the CLI fetches its
settings once, before the loop. -/
def cliTurn (settings : Settings) (db : Db) (prov : Provider)
    (message : String) (history : List Turn) : CliOutcome :=
  let queryEmbedding := embedOpt prov
  let limit := settings.get "search_limit" (.int 5)
  let searchPick : Except String (List RetrievedMemory) × Event :=
    if optTruthy queryEmbedding then (db.searchResult, .search limit)
    else (db.searchFtsResult, .searchFts limit)
  match searchPick.1 with
  | .error e => ⟨.error e, history, false, true, [.embed, searchPick.2]⟩
  | .ok memories =>
    let context := buildContext memories
    match prov.chatResult with
    | .error e =>
      ⟨.error e, history, false, false, [.embed, searchPick.2, .chat context]⟩
    | .ok reply =>
      let history2 := appendTrim history message reply
      let base : List Event := [.embed, searchPick.2, .chat context]
      if (settings.get "auto_capture" (.bool true)).truthy then
        match db.shouldCaptureResult with
        | .error e => ⟨.error e, history2, false, true, base ++ [.shouldCapture]⟩
        | .ok true =>
          let cap := cliCapture db prov queryEmbedding
          ⟨.ok reply, history2, cap.1, false, base ++ [.shouldCapture] ++ cap.2⟩
        | .ok false =>
          ⟨.ok reply, history2, false, false, base ++ [.shouldCapture]⟩
      else
        ⟨.ok reply, history2, false, false, base⟩

/-- Per-turn script for a CLI session: the state the external services are
in when that turn runs, and the user's message. -/
structure Tape where
  db : Db
  prov : Provider
  message : String

/-- The CLI loop over a list of turns, threading the history; an unhandled
exception ends the process. -/
def cliRun (settings : Settings) (history : List Turn) :
    List Tape → List CliOutcome
  | [] => []
  | t :: rest =>
    let o := cliTurn settings t.db t.prov t.message history
    if o.crashed then [o] else o :: cliRun settings o.history rest

/-- src/cli/chat.py `main`: the settings are fetched once
(`settings = db.get_all_settings()`, line 33, before the loop) and every
loop iteration reuses that dictionary. -/
def cliMain (dbAtStart : Db) (tapes : List Tape) : List CliOutcome :=
  cliRun dbAtStart.settings [] tapes

/-- Whether the search stage of a turn succeeds (the branch actually taken,
hybrid or full-text, returns rather than raises). -/
def searchStageOk (db : Db) (prov : Provider) : Bool :=
  match (if optTruthy (embedOpt prov) then db.searchResult else db.searchFtsResult) with
  | .ok _ => true
  | .error _ => false

/-- Whether an event is one of the auto-capture stage's calls. -/
def isCaptureEvent : Event → Bool
  | .shouldCapture => true
  | .store _ => true
  | _ => false

/-- Whether an event is a `db.store` call. -/
def isStoreEvent : Event → Bool
  | .store _ => true
  | _ => false

/-! ## History invariant model -/

/-- The full turn transcript of a list of (user message, assistant reply)
pairs, in order. -/
def flattenPairs : List (String × String) → List Turn
  | [] => []
  | p :: rest => ⟨"user", p.1⟩ :: ⟨"assistant", p.2⟩ :: flattenPairs rest

/-- The stored history after running the per-turn update `appendTrim` over
a list of successful (message, reply) turns, starting from a fresh
session. -/
def runTurns (ps : List (String × String)) : List Turn :=
  ps.foldl (fun h p => appendTrim h p.1 p.2) []

/-! ## Settings persistence (src/lib/database.py) -/

/-- Modelled from the spec: the key-value store behind the
`pgagent.set_setting`, `pgagent.get_setting` and `pgagent.get_all_settings`
SQL functions is not under src/; per the spec (§4.2, "Setting: key (string,
unique) → value (arbitrary JSON scalar/object)", an opaque settings
key-value store) it persists each value and hands the stored JSON text back
unchanged, modelled as an association list keyed by the setting name. -/
abbrev SettingsStore := List (String × String)

/-- Store/overwrite a value under a key. -/
def storePut (st : SettingsStore) (key value : String) : SettingsStore :=
  (key, value) :: st.filter (fun kv => kv.1 ≠ key)

/-- Read the stored JSON text of a key. -/
def storeGet (st : SettingsStore) (key : String) : Option String :=
  (st.find? (fun kv => kv.1 = key)).map (fun kv => kv.2)

/-- Python `value.startswith('\x22')` for a string value. -/
def startsWithQuote (s : String) : Bool :=
  match s.data with
  | '"' :: _ => true
  | _ => false

/-- One JSON string escape, `\x5cC ↦` its character (src behaviour of
`json.loads`; the `\x5cuXXXX` form is not modelled — no settled statement
reaches it). -/
def jsonUnescape : Char → Option Char
  | '"' => Option.some '"'
  | '\\' => Option.some '\\'
  | '/' => Option.some '/'
  | 'b' => Option.some (Char.ofNat 8)
  | 'f' => Option.some (Char.ofNat 12)
  | 'n' => Option.some '\n'
  | 'r' => Option.some (Char.ofNat 13)
  | 't' => Option.some '\t'
  | _ => Option.none

/-- Body of a JSON string literal after the opening quote: characters up to
the closing quote, which must end the input (`json.loads` rejects trailing
data); escapes are decoded, unescaped control characters are rejected
(strict mode), and a missing closing quote is an error. -/
def parseStringBody : List Char → Option (List Char)
  | [] => Option.none
  | c :: rest =>
    if c = '"' then (if rest.isEmpty then Option.some [] else Option.none)
    else if c = '\\' then
      match rest with
      | [] => Option.none
      | e :: rest2 =>
        match jsonUnescape e with
        | Option.some u => (parseStringBody rest2).map (fun cs => u :: cs)
        | Option.none => Option.none
    else if c.toNat < 32 then Option.none
    else (parseStringBody rest).map (fun cs => c :: cs)

/-- `json.loads` restricted to JSON string literals (the only shape the
settled statements evaluate it on); `Option.none` models a raised
`JSONDecodeError` or a non-string-literal input. -/
def json_loads_str (s : String) : Option String :=
  match s.data with
  | '"' :: rest => (parseStringBody rest).map (fun cs => { data := cs })
  | _ => Option.none

/-- src/lib/database.py `set_setting` (lines 55-61) for a string value: a
string not already starting with a double quote is wrapped in double
quotes, then stored under the key. -/
def set_setting (st : SettingsStore) (key value : String) : SettingsStore :=
  let v := if startsWithQuote value then value else "\"" ++ value ++ "\""
  storePut st key v

/-- src/lib/database.py `get_setting` (lines 46-53) over the modelled
store: a missing or falsy (empty) value gives `None`; a string value is
passed to `json.loads` (modelled for string literals; a parse failure,
like the exception it raises, gives no value). -/
def get_setting (st : SettingsStore) (key : String) : Option String :=
  match storeGet st key with
  | Option.some v => if v.data.isEmpty then Option.none else json_loads_str v
  | Option.none => Option.none

/-- src/lib/database.py `get_all_settings` (lines 63-70) over the modelled
store: each stored string value that starts with a double quote is
JSON-parsed, other values pass through; `Option.none` models the exception
a parse failure raises. -/
def get_all_settings (st : SettingsStore) : List (String × Option String) :=
  st.map (fun kv =>
    (kv.1, if startsWithQuote kv.2 then json_loads_str kv.2 else Option.some kv.2))

/-! ## Concrete oracles and inputs used by witnesses and counterexamples -/

/-- Concrete settings configuring an unknown provider for both chat and
embeddings. -/
def c2SettingsW : Settings :=
  [("chat_provider", .str "doesnotexist"), ("embedding_provider", .str "doesnotexist")]

/-- The empty environment. -/
def envNone : Env := fun _ => Option.none

/-- Baseline oracle: all gateway calls succeed, no memories retrieved,
capture approved, default settings. -/
def dbOk : Db :=
  { settings := [], searchResult := .ok [], searchFtsResult := .ok [],
    shouldCaptureResult := .ok true, storeResult := .ok () }

/-- Provider oracle on which both calls succeed. -/
def provOk : Provider := { embedResult := .ok [1], chatResult := .ok "reply" }

/-- Provider oracle whose chat call raises. -/
def provChatFail : Provider :=
  { embedResult := .ok [1], chatResult := .error "chat down" }

/-- Provider oracle whose embedding call raises. -/
def provEmbFail : Provider :=
  { embedResult := .error "embed down", chatResult := .ok "reply" }

/-- Gateway oracle whose hybrid search call raises. -/
def dbSearchFail : Db := { dbOk with searchResult := .error "search down" }

/-- Gateway oracle whose capture-worthiness check raises. -/
def dbScFail : Db :=
  { dbOk with shouldCaptureResult := .error "capture check down" }

/-- Gateway oracle whose store call raises. -/
def dbStoreFail : Db := { dbOk with storeResult := .error "store down" }

/-- Gateway oracle whose stored settings have `auto_capture` enabled. -/
def dbAutoOn : Db := { dbOk with settings := [("auto_capture", .bool true)] }

/-- Gateway oracle whose stored settings have `auto_capture` disabled. -/
def dbAutoOff : Db := { dbOk with settings := [("auto_capture", .bool false)] }

/-- First CLI turn: gateway still has `auto_capture` enabled. -/
def tapeOn : Tape := ⟨dbAutoOn, provOk, "first message"⟩

/-- Second CLI turn: the stored `auto_capture` setting has meanwhile been
changed to false. -/
def tapeOff : Tape := ⟨dbAutoOff, provOk, "second message"⟩

/-! ## Theorems -/

lemma flattenPairs_append (l₁ l₂ : List (String × String)) :
    flattenPairs (l₁ ++ l₂) = flattenPairs l₁ ++ flattenPairs l₂ := by
  induction l₁ with
  | nil => rfl
  | cons p rest ih => simp [flattenPairs, ih]

lemma length_flattenPairs (l : List (String × String)) :
    (flattenPairs l).length = 2 * l.length := by
  induction l with
  | nil => rfl
  | cons p rest ih =>
    simp only [flattenPairs, List.length_cons, ih]
    omega

lemma flattenPairs_drop_two (l : List (String × String)) :
    (flattenPairs l).drop 2 = flattenPairs (l.drop 1) := by
  cases l with
  | nil => rfl
  | cons p rest => rfl

lemma flattenPairs_concat (qs : List (String × String)) (p : String × String) :
    flattenPairs qs ++ [⟨"user", p.1⟩, ⟨"assistant", p.2⟩] =
      flattenPairs (qs ++ [p]) := by
  rw [flattenPairs_append]
  rfl

lemma runTurns_eq (ps : List (String × String)) :
    runTurns ps = flattenPairs (ps.drop (ps.length - 10)) := by
  induction ps using List.reverseRecOn with
  | nil => rfl
  | append_singleton ps p ih =>
    have hstep : runTurns (ps ++ [p]) = appendTrim (runTurns ps) p.1 p.2 := by
      simp [runTurns, List.foldl_append]
    rw [hstep, ih, appendTrim, flattenPairs_concat]
    have hdlen : (ps.drop (ps.length - 10)).length = ps.length - (ps.length - 10) :=
      List.length_drop ..
    have hlen : (flattenPairs (ps.drop (ps.length - 10) ++ [p])).length =
        2 * (ps.length - (ps.length - 10)) + 2 := by
      rw [length_flattenPairs]
      simp [hdlen]
      omega
    by_cases hsmall : ps.length ≤ 9
    · have h0 : ps.length - 10 = 0 := by omega
      have h1 : (ps ++ [p]).length - 10 = 0 := by
        simp
        omega
      have hle : ¬ (flattenPairs (ps ++ [p])).length > 20 := by
        rw [length_flattenPairs]
        simp
        omega
      rw [h0, List.drop_zero, h1, List.drop_zero, trim20, if_neg hle]
    · have h10 : ps.length - (ps.length - 10) = 10 := by omega
      have hgt : (flattenPairs (ps.drop (ps.length - 10) ++ [p])).length > 20 := by
        rw [hlen, h10]
        omega
      have hd2 : (flattenPairs (ps.drop (ps.length - 10) ++ [p])).length - 20 = 2 := by
        rw [hlen, h10]
      rw [trim20, if_pos hgt, hd2, flattenPairs_drop_two]
      congr 1
      rw [List.drop_append_of_le_length (by rw [hdlen, h10]; omega),
        List.drop_drop]
      have h2 : (ps ++ [p]).length - 10 = ps.length - 9 := by
        simp only [List.length_append, List.length_singleton]
        omega
      rw [h2]
      have h3 : ps.length - 10 + 1 = ps.length - 9 := by omega
      rw [h3, List.drop_append_of_le_length (by omega)]

/-- C1: after any sequence of N successful turns on one session, the stored
history is exactly the transcript of the most recent min(N, 10)
message/reply pairs — so it has length min(2N, 20), keeps the most recent
turns in their original order, and every user turn is immediately followed
by its paired assistant turn (trimming never splits a pair). -/
theorem c1_history_invariant (ps : List (String × String)) :
    runTurns ps = flattenPairs (ps.drop (ps.length - 10)) ∧
    (runTurns ps).length = min (2 * ps.length) 20 := by
  refine ⟨runTurns_eq ps, ?_⟩
  rw [runTurns_eq, length_flattenPairs, List.length_drop]
  omega

/-- C2: for each provider name in the known set, `get_chat_response` and
`get_embedding` dispatch to exactly that provider's adapter with the
arguments of the call — routing is a pure function of the configured
provider name — and for a provider name outside the known set both fail
with an error whose message names the offending provider string. -/
theorem c2_provider_dispatch (settings : Settings) (msg context text : String)
    (history : List Turn) :
    (settings.get "chat_provider" (.str "openai") = .str "openai" →
      get_chat_response msg history context settings =
        .ok (.openai msg history context
          (settings.get "system_prompt" (.str defaultSystemPrompt))
          (settings.get "chat_model" (.str "gpt-4o-mini")))) ∧
    (settings.get "chat_provider" (.str "openai") = .str "anthropic" →
      get_chat_response msg history context settings =
        .ok (.anthropic msg history context
          (settings.get "system_prompt" (.str defaultSystemPrompt))
          (settings.get "chat_model" (.str "gpt-4o-mini")))) ∧
    (settings.get "chat_provider" (.str "openai") = .str "gemini" →
      get_chat_response msg history context settings =
        .ok (.gemini msg history context
          (settings.get "system_prompt" (.str defaultSystemPrompt))
          (settings.get "chat_model" (.str "gpt-4o-mini")))) ∧
    (settings.get "chat_provider" (.str "openai") = .str "ollama" →
      get_chat_response msg history context settings =
        .ok (.ollama msg history context
          (settings.get "system_prompt" (.str defaultSystemPrompt))
          (settings.get "chat_model" (.str "gpt-4o-mini")))) ∧
    (∀ s, settings.get "chat_provider" (.str "openai") = .str s →
      s ∉ (["openai", "anthropic", "gemini", "ollama"] : List String) →
      get_chat_response msg history context settings =
        .error ("Unknown chat provider: " ++ s)) ∧
    (settings.get "embedding_provider" (.str "openai") = .str "openai" →
      get_embedding text settings =
        .ok (.openai text
          (settings.get "embedding_model" (.str "text-embedding-3-small")))) ∧
    (settings.get "embedding_provider" (.str "openai") = .str "gemini" →
      get_embedding text settings =
        .ok (.gemini text
          (settings.get "embedding_model" (.str "text-embedding-3-small")))) ∧
    (settings.get "embedding_provider" (.str "openai") = .str "voyage" →
      get_embedding text settings =
        .ok (.voyage text
          (settings.get "embedding_model" (.str "text-embedding-3-small")))) ∧
    (settings.get "embedding_provider" (.str "openai") = .str "ollama" →
      get_embedding text settings =
        .ok (.ollama text
          (settings.get "embedding_model" (.str "text-embedding-3-small")))) ∧
    (∀ s, settings.get "embedding_provider" (.str "openai") = .str s →
      s ∉ (["openai", "gemini", "voyage", "ollama"] : List String) →
      get_embedding text settings =
        .error ("Unknown embedding provider: " ++ s)) := by
  refine ⟨fun h => ?_, fun h => ?_, fun h => ?_, fun h => ?_,
    fun s hs hmem => ?_, fun h => ?_, fun h => ?_, fun h => ?_, fun h => ?_,
    fun s hs hmem => ?_⟩ <;>
    first
      | simp [get_chat_response, h]
      | simp [get_embedding, h]
      | · simp only [List.mem_cons, List.not_mem_nil, or_false, not_or] at hmem
          obtain ⟨h1, h2, h3, h4⟩ := hmem
          simp [get_chat_response, get_embedding, hs, h1, h2, h3, h4, PyVal.render]

/-- Witness for C2: at a concrete unknown provider name, both dispatchers
fail with the message naming it. -/
theorem c2_provider_dispatch_witness :
    get_chat_response "hi" [] "" c2SettingsW =
      .error "Unknown chat provider: doesnotexist" ∧
    get_embedding "hi" c2SettingsW =
      .error "Unknown embedding provider: doesnotexist" := by
  obtain ⟨hc1, hc2, hc3, hc4, hcU, he1, he2, he3, he4, heU⟩ :=
    c2_provider_dispatch c2SettingsW "hi" "" "hi" []
  exact ⟨hcU "doesnotexist" (by decide) (by decide),
    heU "doesnotexist" (by decide) (by decide)⟩

/-- C8: whenever the configured model name equals a shared cross-provider
default placeholder, each non-default provider adapter substitutes its own
locally-appropriate default model name, and the name sent upstream is never
the placeholder (for the local Ollama backend, provided its environment
override is not itself set to a placeholder name). -/
theorem c8_model_substitution (env : Env) (m : String)
    (hc : ∀ v, env "OLLAMA_CHAT_MODEL" = Option.some v → v ∉ chatPlaceholders)
    (he : ∀ v, env "OLLAMA_EMBEDDING_MODEL" = Option.some v →
      v ≠ "text-embedding-3-small") :
    (m ∈ chatPlaceholders →
      anthropicChatModel m ∉ chatPlaceholders ∧
      geminiChatModel m = "gemini-1.5-flash" ∧
      geminiChatModel m ∉ chatPlaceholders ∧
      ollamaChatModel env m ∉ chatPlaceholders) ∧
    (m = "gpt-4o-mini" → anthropicChatModel m = "claude-3-haiku-20240307") ∧
    (m = "gpt-4o" → anthropicChatModel m = "claude-3-5-sonnet-20241022") ∧
    (env "OLLAMA_CHAT_MODEL" = Option.none → m ∈ chatPlaceholders →
      ollamaChatModel env m = "llama3.1:8b") ∧
    (m = "text-embedding-3-small" →
      geminiEmbeddingModel m = "models/embedding-001" ∧
      voyageEmbeddingModel m = "voyage-2" ∧
      geminiEmbeddingModel m ≠ m ∧
      voyageEmbeddingModel m ≠ m ∧
      ollamaEmbeddingModel env m ≠ m) ∧
    (env "OLLAMA_EMBEDDING_MODEL" = Option.none → m = "text-embedding-3-small" →
      ollamaEmbeddingModel env m = "nomic-embed-text") := by
  refine ⟨?_, ?_, ?_, ?_, ?_, ?_⟩
  · intro hm
    have hm' : m = "gpt-4o-mini" ∨ m = "gpt-4o" := by
      simpa [chatPlaceholders] using hm
    refine ⟨?_, ?_, ?_, ?_⟩
    · rcases hm' with h | h <;> subst h <;> decide
    · rcases hm' with h | h <;> subst h <;> decide
    · rcases hm' with h | h <;> subst h <;> decide
    · rw [ollamaChatModel, if_pos hm]
      unfold getenvD
      cases henv : env "OLLAMA_CHAT_MODEL" with
      | none => decide
      | some v => simpa using hc v henv
  · intro h
    subst h
    decide
  · intro h
    subst h
    decide
  · intro henv hm
    rw [ollamaChatModel, if_pos hm]
    unfold getenvD
    rw [henv]
    rfl
  · intro h
    subst h
    refine ⟨by decide, by decide, by decide, by decide, ?_⟩
    rw [ollamaEmbeddingModel, if_pos rfl]
    unfold getenvD
    cases henv : env "OLLAMA_EMBEDDING_MODEL" with
    | none => decide
    | some v => simpa using he v henv
  · intro henv h
    subst h
    rw [ollamaEmbeddingModel, if_pos rfl]
    unfold getenvD
    rw [henv]
    rfl

/-- Witness for C8: with no environment overrides, the placeholder chat and
embedding model names are substituted by each adapter's local default. -/
theorem c8_model_substitution_witness :
    anthropicChatModel "gpt-4o-mini" = "claude-3-haiku-20240307" ∧
    ollamaChatModel envNone "gpt-4o-mini" = "llama3.1:8b" ∧
    ollamaEmbeddingModel envNone "text-embedding-3-small" = "nomic-embed-text" := by
  obtain ⟨ha, hb, hcq, hd, hee, hf⟩ :=
    c8_model_substitution envNone "gpt-4o-mini"
      (fun v hv => nomatch hv) (fun v hv => nomatch hv)
  obtain ⟨ha2, hb2, hc2, hd2, he2, hf2⟩ :=
    c8_model_substitution envNone "text-embedding-3-small"
      (fun v hv => nomatch hv) (fun v hv => nomatch hv)
  exact ⟨hb rfl, hd rfl (by decide), hf2 rfl rfl⟩

lemma foldl_context_lines (ms : List RetrievedMemory) (s : String) :
    ms.foldl (fun acc m => acc ++ "- [" ++ m.category ++ "] " ++ m.content ++ "\n") s
      = s ++ memoryLines ms := by
  induction ms generalizing s with
  | nil => simp [memoryLines]
  | cons m rest ih =>
    simp only [List.foldl_cons, memoryLines]
    rw [ih]
    simp [String.append_assoc]

/-- C9: context assembly produces the empty string for an empty retrieval
list, and for a non-empty list a single delimited block with exactly one
line per item in input order, each line being a dash, the item's category
in square brackets, a space, and the item's content. -/
theorem c9_context_block (ms : List RetrievedMemory) (h : ms ≠ []) :
    buildContext [] = "" ∧
    buildContext ms =
      "\n<relevant-memories>\n" ++ memoryLines ms ++ "</relevant-memories>\n" := by
  refine ⟨rfl, ?_⟩
  rw [buildContext, if_neg (by simpa using h), foldl_context_lines]

/-- Witness for C9 at a one-item list. -/
theorem c9_context_block_witness :
    buildContext [⟨"tech", "Uses PostgreSQL"⟩] =
      "\n<relevant-memories>\n" ++ memoryLines [⟨"tech", "Uses PostgreSQL"⟩] ++
        "</relevant-memories>\n" :=
  (c9_context_block [⟨"tech", "Uses PostgreSQL"⟩] (by decide)).2

lemma find?_append_none {α : Type} (p : α → Bool) (l₁ l₂ : List α)
    (h : l₁.find? p = Option.none) : (l₁ ++ l₂).find? p = l₂.find? p := by
  induction l₁ with
  | nil => rfl
  | cons a l ih =>
    by_cases hpa : p a = true
    · rw [List.find?_cons_of_pos _ hpa] at h
      exact absurd h (by simp)
    · rw [List.find?_cons_of_neg _ hpa] at h
      rw [List.cons_append, List.find?_cons_of_neg _ hpa]
      exact ih h

lemma getHistory_ensure (cs : Conversations) (sid : String) :
    getHistory (ensureSession cs sid) sid = getHistory cs sid := by
  unfold ensureSession
  cases hf : cs.find? (fun kv => kv.1 = sid) with
  | some kv => simp [hf]
  | none =>
    simp only [hf, Option.isSome_none, Bool.false_eq_true, if_false]
    unfold getHistory
    rw [find?_append_none _ _ _ hf, hf]
    simp [List.find?]

lemma searchOk_cases (db : Db) (prov : Provider)
    (hs : searchStageOk db prov = true) :
    (optTruthy (embedOpt prov) = true ∧ ∃ ms, db.searchResult = .ok ms) ∨
    (optTruthy (embedOpt prov) = false ∧ ∃ ms, db.searchFtsResult = .ok ms) := by
  unfold searchStageOk at hs
  cases hemb : optTruthy (embedOpt prov) with
  | true =>
    rw [hemb, if_pos rfl] at hs
    cases hsr : db.searchResult with
    | error e2 => rw [hsr] at hs; exact absurd hs (by simp)
    | ok ms => exact Or.inl ⟨rfl, ms, rfl⟩
  | false =>
    rw [hemb] at hs
    simp only [Bool.false_eq_true, if_false] at hs
    cases hsr : db.searchFtsResult with
    | error e2 => rw [hsr] at hs; exact absurd hs (by simp)
    | ok ms => exact Or.inr ⟨rfl, ms, rfl⟩

/-- C3: when the chat-completion call raises, the turn surfaces exactly the
underlying error to the caller and the session's turn history is left
unchanged — neither the user turn nor an assistant turn is appended — in
both the GUI endpoint and the CLI loop (the hypotheses say the chat call
was reached: the search stage succeeded). -/
theorem c3_chat_failure_atomic (db : Db) (prov : Provider) (settings : Settings)
    (msg sid : String) (convs : Conversations) (history : List Turn) (e : String)
    (hchat : prov.chatResult = .error e)
    (hs : searchStageOk db prov = true) :
    ((guiChat db prov msg sid convs).result = .error e ∧
      getHistory (guiChat db prov msg sid convs).conversations sid =
        getHistory convs sid) ∧
    ((cliTurn settings db prov msg history).result = .error e ∧
      (cliTurn settings db prov msg history).history = history) := by
  unfold searchStageOk at hs
  cases hemb : optTruthy (embedOpt prov) with
  | true =>
    rw [hemb, if_pos rfl] at hs
    cases hsr : db.searchResult with
    | error e2 => rw [hsr] at hs; exact absurd hs (by simp)
    | ok ms => simp [guiChat, cliTurn, hemb, hsr, hchat, getHistory_ensure]
  | false =>
    rw [hemb] at hs
    simp only [Bool.false_eq_true, if_false] at hs
    cases hsr : db.searchFtsResult with
    | error e2 => rw [hsr] at hs; exact absurd hs (by simp)
    | ok ms => simp [guiChat, cliTurn, hemb, hsr, hchat, getHistory_ensure]

/-- Witness for C3 at a concrete failing chat call. -/
theorem c3_chat_failure_atomic_witness :
    (guiChat dbOk provChatFail "hello" "s1" []).result = .error "chat down" ∧
    (cliTurn [] dbOk provChatFail "hello" []).history = [] := by
  obtain ⟨⟨h1, h2⟩, h3, h4⟩ :=
    c3_chat_failure_atomic dbOk provChatFail [] "hello" "s1" [] [] "chat down"
      rfl (by decide)
  exact ⟨h1, h4⟩

/-- C4 (code bug in the CLI): at a turn where the query embedding was
obtained and capture approved, the GUI reuses it — one `get_embedding`
call in the whole turn, and the stored vector is the query embedding —
while the CLI issues a second `get_embedding` call for the same message;
and at a turn where no query embedding was obtained, the CLI stores the
memory with no embedding instead of computing a fresh one. -/
theorem c4_cli_capture_embedding_bug :
    (guiChat dbOk provOk "hello" "s1" []).events.count .embed = 1 ∧
    (guiChat dbOk provOk "hello" "s1" []).events.count
      (.store (Option.some [1])) = 1 ∧
    (cliTurn [] dbOk provOk "hello" []).events.count .embed = 2 ∧
    (cliTurn [] dbOk provEmbFail "hello" []).events.count
      (.store Option.none) = 1 ∧
    (cliTurn [] dbOk provEmbFail "hello" []).events.count .embed = 1 := by
  decide

/-- C5 counterexample: at a concrete turn whose hybrid search call fails,
the turn does not continue with an empty memory list — it aborts with the
search error, in both front ends (and in the CLI the exception is
unhandled). -/
theorem c5_counterexample :
    (guiChat dbSearchFail provOk "hello" "s1" []).result = .error "search down" ∧
    (cliTurn [] dbSearchFail provOk "hello" []).result = .error "search down" ∧
    (cliTurn [] dbSearchFail provOk "hello" []).crashed = true :=
  ⟨rfl, rfl, rfl⟩

/-- C5 amended: a failure of the Memory Gateway search call (hybrid or
full-text, whichever branch the turn takes) propagates and aborts the turn
with that error in both front ends; the turn does not continue with an
empty memory list. -/
theorem c5_amended (db : Db) (prov : Provider) (settings : Settings)
    (msg sid : String) (convs : Conversations) (history : List Turn) (e : String)
    (hfail : (if optTruthy (embedOpt prov) then db.searchResult
              else db.searchFtsResult) = .error e) :
    (guiChat db prov msg sid convs).result = .error e ∧
    (cliTurn settings db prov msg history).result = .error e := by
  cases hemb : optTruthy (embedOpt prov) with
  | true =>
    rw [hemb, if_pos rfl] at hfail
    simp [guiChat, cliTurn, hemb, hfail]
  | false =>
    rw [hemb] at hfail
    simp only [Bool.false_eq_true, if_false] at hfail
    simp [guiChat, cliTurn, hemb, hfail]

/-- Witness for C5 (amended) at a concrete failing full-text search. -/
theorem c5_amended_witness :
    (guiChat { dbOk with searchFtsResult := .error "fts down" } provEmbFail
      "hi" "s1" []).result = .error "fts down" ∧
    (cliTurn [] { dbOk with searchFtsResult := .error "fts down" } provEmbFail
      "hi" []).result = .error "fts down" :=
  c5_amended { dbOk with searchFtsResult := .error "fts down" } provEmbFail []
    "hi" "s1" [] [] "fts down" rfl

/-- C6 counterexample: at a concrete turn with a successfully generated
reply, a failure of the `shouldCapture` call — part of the MaybeCapture
stage — is not swallowed: the turn fails with that error and the caller
never receives the reply, in both front ends. -/
theorem c6_counterexample :
    provOk.chatResult = .ok "reply" ∧
    (guiChat dbScFail provOk "hello" "s1" []).result =
      .error "capture check down" ∧
    (cliTurn [] dbScFail provOk "hello" []).result =
      .error "capture check down" :=
  ⟨rfl, rfl, rfl⟩

/-- C6 amended: failures of the capture embedding computation and of the
store call are swallowed and the caller still receives the generated reply;
but a failure of the `shouldCapture` call itself propagates and the reply
is lost, in both front ends. -/
theorem c6_amended (db : Db) (prov : Provider) (settings : Settings)
    (msg sid : String) (convs : Conversations) (history : List Turn) :
    (∀ r b, searchStageOk db prov = true → prov.chatResult = .ok r →
      db.shouldCaptureResult = .ok b →
      Except.map ChatResponse.response (guiChat db prov msg sid convs).result =
        .ok r ∧
      (cliTurn settings db prov msg history).result = .ok r) ∧
    (∀ r e, searchStageOk db prov = true → prov.chatResult = .ok r →
      db.shouldCaptureResult = .error e →
      (db.settings.get "auto_capture" (.bool true)).truthy = true →
      (guiChat db prov msg sid convs).result = .error e) ∧
    (∀ r e, searchStageOk db prov = true → prov.chatResult = .ok r →
      db.shouldCaptureResult = .error e →
      (settings.get "auto_capture" (.bool true)).truthy = true →
      (cliTurn settings db prov msg history).result = .error e) := by
  refine ⟨fun r b hs hchat hsc => ?_, fun r e hs hchat hsc hgate => ?_,
    fun r e hs hchat hsc hgate => ?_⟩
  · rcases searchOk_cases db prov hs with ⟨hemb, ms, hsr⟩ | ⟨hemb, ms, hsr⟩ <;>
      cases b <;>
      cases hbG : (db.settings.get "auto_capture" (.bool true)).truthy <;>
      cases hbC : (settings.get "auto_capture" (.bool true)).truthy <;>
      simp [guiChat, cliTurn, hemb, hsr, hchat, hsc, hbG, hbC, Except.map]
  · rcases searchOk_cases db prov hs with ⟨hemb, ms, hsr⟩ | ⟨hemb, ms, hsr⟩ <;>
      simp [guiChat, hemb, hsr, hchat, hsc, hgate]
  · rcases searchOk_cases db prov hs with ⟨hemb, ms, hsr⟩ | ⟨hemb, ms, hsr⟩ <;>
      simp [cliTurn, hemb, hsr, hchat, hsc, hgate]

/-- Witness for C6 (amended) at a concrete failing store call: the reply
still reaches the caller. -/
theorem c6_amended_witness :
    Except.map ChatResponse.response
      (guiChat dbStoreFail provOk "hi" "s1" []).result = .ok "reply" ∧
    (cliTurn [] dbStoreFail provOk "hi" []).result = .ok "reply" := by
  obtain ⟨h1, h2, h3⟩ := c6_amended dbStoreFail provOk [] "hi" "s1" [] []
  exact h1 "reply" true (by decide) rfl rfl

/-- C7 counterexample: a CLI session starts while `auto_capture` is true;
before the second turn the stored setting changes to false, yet the second
turn still performs capture (a `db.store` call occurs), because the CLI
fetched the settings once at startup — the changed setting does not take
effect on the later turn. The GUI, which reads the settings within the
turn, performs no capture under the same current settings. -/
theorem c7_counterexample :
    (dbAutoOff.settings.get "auto_capture" (.bool true)).truthy = false ∧
    ((cliMain dbAutoOn [tapeOn, tapeOff]).get? 1).map
      (fun o => o.events.any isStoreEvent) = Option.some true ∧
    (guiChat dbAutoOff provOk "second message" "s1" []).events.any
      isStoreEvent = false := by
  decide

/-- C7 amended: the GUI re-fetches the settings from the gateway at the
start of every request (its first external call is `get_all_settings`) and
the turn is governed by them (a falsy `auto_capture` in the current
settings suppresses the whole capture stage); the CLI reuses the settings
fetched once at startup, and a CLI turn is entirely independent of the
settings currently stored in the gateway — so a changed setting takes
effect on a later GUI turn but not within a running CLI session. -/
theorem c7_amended (db : Db) (prov : Provider) (settings s' : Settings)
    (msg sid : String) (convs : Conversations) (history : List Turn) :
    (guiChat db prov msg sid convs).events.head? =
      Option.some .getAllSettings ∧
    ((db.settings.get "auto_capture" (.bool true)).truthy = false →
      (guiChat db prov msg sid convs).events.any isCaptureEvent = false) ∧
    cliTurn settings { db with settings := s' } prov msg history =
      cliTurn settings db prov msg history := by
  refine ⟨?_, fun hgate => ?_, rfl⟩
  · cases hemb : optTruthy (embedOpt prov) <;>
      [cases hsr : db.searchFtsResult; cases hsr : db.searchResult] <;>
      cases hcr : prov.chatResult <;>
      cases hsc : db.shouldCaptureResult <;>
      cases hgate2 : (db.settings.get "auto_capture" (.bool true)).truthy <;>
      simp [guiChat, hemb, hsr, hcr, hsc, hgate2]
    all_goals
      rename_i b
      cases b <;> simp [guiCapture]
  · cases hemb : optTruthy (embedOpt prov) <;>
      [cases hsr : db.searchFtsResult; cases hsr : db.searchResult] <;>
      cases hcr : prov.chatResult <;>
      simp [guiChat, hemb, hsr, hcr, hgate, isCaptureEvent]

/-- Witness for C7 (amended): with `auto_capture` currently false the GUI
turn issues no capture call, and a CLI turn ignores the gateway's current
settings entirely. -/
theorem c7_amended_witness :
    (guiChat dbAutoOff provOk "hi" "s1" []).events.any isCaptureEvent = false ∧
    cliTurn dbAutoOn.settings
        { dbAutoOff with settings := [] } provOk "hi" [] =
      cliTurn dbAutoOn.settings dbAutoOff provOk "hi" [] := by
  obtain ⟨h1, h2, h3⟩ :=
    c7_amended dbAutoOff provOk dbAutoOn.settings [] "hi" "s1" [] []
  exact ⟨h2 (by decide), h3⟩

lemma data_append (s t : String) : (s ++ t).data = s.data ++ t.data := rfl

lemma quoted_data (v : String) :
    ("\"" ++ v ++ "\"").data = '"' :: (v.data ++ ['"']) := by
  rw [data_append, data_append]
  simp

lemma startsWithQuote_quoted (v : String) :
    startsWithQuote ("\"" ++ v ++ "\"") = true := by
  unfold startsWithQuote
  rw [quoted_data]
  rfl

lemma parseStringBody_cons (c : Char) (rest : List Char) :
    parseStringBody (c :: rest) =
      if c = '"' then (if rest.isEmpty then Option.some [] else Option.none)
      else if c = '\\' then
        (match rest with
         | [] => Option.none
         | e :: rest2 =>
           match jsonUnescape e with
           | Option.some u => (parseStringBody rest2).map (fun cs => u :: cs)
           | Option.none => Option.none)
      else if c.toNat < 32 then Option.none
      else (parseStringBody rest).map (fun cs => c :: cs) := by
  rw [parseStringBody.eq_def]

lemma parseStringBody_clean (cs : List Char)
    (h : ∀ c ∈ cs, c ≠ '"' ∧ c ≠ '\\' ∧ 32 ≤ c.toNat) :
    parseStringBody (cs ++ ['"']) = Option.some cs := by
  induction cs with
  | nil => rfl
  | cons c rest ih =>
    obtain ⟨h1, h2, h3⟩ := h c (by simp)
    have hn : ¬ c.toNat < 32 := by omega
    rw [List.cons_append, parseStringBody_cons, if_neg h1, if_neg h2, if_neg hn,
      ih (fun x hx => h x (by simp [hx]))]
    rfl

lemma json_roundtrip (v : String)
    (h : ∀ c ∈ v.data, c ≠ '"' ∧ c ≠ '\\' ∧ 32 ≤ c.toNat) :
    json_loads_str ("\"" ++ v ++ "\"") = Option.some v := by
  have hm : json_loads_str ("\"" ++ v ++ "\"") =
      (parseStringBody (v.data ++ ['"'])).map (fun cs => { data := cs }) := by
    unfold json_loads_str
    rw [quoted_data]
    rfl
  rw [hm, parseStringBody_clean v.data h]
  rfl

/-- C10 counterexample: the two-character value backslash-n satisfies the
claim's hypotheses — it does not start with a double quote and contains
none — yet reading it back after `set_setting` yields the one-character
newline string, not the original: `json.loads` decodes a backslash escape
that `set_setting`'s bare quote-wrapping never encoded. -/
theorem c10_counterexample :
    startsWithQuote "\\n" = false ∧
    (∀ c ∈ ("\\n" : String).data, c ≠ '"') ∧
    get_setting (set_setting [] "k" "\\n") "k" = Option.some "\n" ∧
    Option.some "\n" ≠ Option.some ("\\n" : String) := by
  refine ⟨rfl, by decide, by decide, by decide⟩

/-- C10 amended: for every key and every string value that does not start
with a double quote and contains no double quote, no backslash, and no
control character (code point below 32), `set_setting` followed by
`get_setting` or `get_all_settings` returns the original string unchanged:
`set_setting` wraps the bare string in double quotes and the readers strip
them by JSON-parsing values that start with a double quote. -/
theorem c10_amended (st : SettingsStore) (key v : String)
    (h0 : startsWithQuote v = false)
    (h1 : ∀ c ∈ v.data, c ≠ '"' ∧ c ≠ '\\' ∧ 32 ≤ c.toNat) :
    get_setting (set_setting st key v) key = Option.some v ∧
    (get_all_settings (set_setting st key v)).find? (fun kv => kv.1 = key) =
      Option.some (key, Option.some v) := by
  have hw : set_setting st key v =
      (key, "\"" ++ v ++ "\"") :: st.filter (fun kv => kv.1 ≠ key) := by
    unfold set_setting storePut
    rw [h0]
    rfl
  constructor
  · unfold get_setting storeGet
    rw [hw, List.find?_cons_of_pos _ (by simp)]
    show (if ("\"" ++ v ++ "\"").data.isEmpty = true then Option.none
      else json_loads_str ("\"" ++ v ++ "\"")) = Option.some v
    rw [if_neg (by rw [quoted_data]; simp), json_roundtrip v h1]
  · unfold get_all_settings
    rw [hw, List.map_cons, List.find?_cons_of_pos _ (by simp)]
    rw [startsWithQuote_quoted, if_pos rfl, json_roundtrip v h1]

/-- Witness for C10 (amended) at a concrete clean string value. -/
theorem c10_amended_witness :
    get_setting (set_setting [] "chat_provider" "ollama") "chat_provider" =
      Option.some "ollama" ∧
    (get_all_settings (set_setting [] "chat_provider" "ollama")).find?
      (fun kv => kv.1 = "chat_provider") =
      Option.some ("chat_provider", Option.some "ollama") :=
  c10_amended [] "chat_provider" "ollama" (by decide) (by decide)

end Pgagent
